import Mathlib

/-!
Shallow embedding of `tests/sample-mappings.test.ts` from the
`erp-toolkit-mapping-examples` repository, together with theorems about the
behaviour of that test module.

The test module's effects on the outside world (reading `process.env`,
reading fixture files with `readFileSync`, issuing HTTP requests through the
axios-based client returned by `getClient()`) are modelled by explicit
environment records (`Sys` for the fixed runtime pieces, `World` for the
mutable outside state), and every run additionally produces a trace of
`Effect`s so that claims about *which* external actions happen, and in which
order, can be stated.
-/

/-- JSON values, the common codomain of `JSON.parse` and the type of request
and response bodies. -/
inductive Json where
  | null
  | bool (b : Bool)
  | num (n : Rat)
  | str (s : String)
  | arr (elems : List Json)
  | obj (fields : List (String × Json))

/-- Boolean equality of JSON values (JavaScript `===` on parsed JSON data,
i.e. deep structural equality of the values involved here). -/
def Json.beq : Json → Json → Bool
  | .null, .null => true
  | .bool a, .bool b => a == b
  | .num a, .num b => a == b
  | .str a, .str b => a == b
  | .arr as, .arr bs => goList as bs
  | .obj as, .obj bs => goFields as bs
  | _, _ => false
where
  goList : List Json → List Json → Bool
    | [], [] => true
    | x :: xs, y :: ys => Json.beq x y && goList xs ys
    | _, _ => false
  goFields : List (String × Json) → List (String × Json) → Bool
    | [], [] => true
    | (k, x) :: xs, (l, y) :: ys => k == l && Json.beq x y && goFields xs ys
    | _, _ => false
termination_by structural j => j

/-- JavaScript property access `j.k` on a parsed JSON value: defined (`some`)
exactly when `j` is an object with a field named `k`. -/
def jsonGet : Json → String → Option Json
  | .obj fields, k => fields.lookup k
  | _, _ => none

/-- Patterns appearing as the argument of `expect(...).toMatchObject(...)`:
JSON literals plus the asymmetric matcher `expect.any(Array)`. -/
inductive Matcher where
  | anyArray
  | m_null
  | m_bool (b : Bool)
  | m_num (n : Rat)
  | m_str (s : String)
  | m_arr (elems : List Matcher)
  | m_obj (fields : List (String × Matcher))

/-- Semantics of `toMatchObject`: objects are matched as subsets (every
expected key must be present and match, extra received keys are ignored),
arrays must have the same length and match element-wise, primitives must be
strictly equal, and `expect.any(Array)` matches any array. -/
def matchValue : Matcher → Json → Bool
  | .anyArray, j => match j with | .arr _ => true | _ => false
  | .m_null, j => Json.beq j .null
  | .m_bool b, j => Json.beq j (.bool b)
  | .m_num n, j => Json.beq j (.num n)
  | .m_str s, j => Json.beq j (.str s)
  | .m_arr ms, j => match j with
    | .arr xs => goElems ms xs
    | _ => false
  | .m_obj fields, j => match j with
    | .obj _ => goFields fields j
    | _ => false
where
  goElems : List Matcher → List Json → Bool
    | [], [] => true
    | m :: ms, x :: xs => matchValue m x && goElems ms xs
    | _, _ => false
  goFields : List (String × Matcher) → Json → Bool
    | [], _ => true
    | (k, m) :: rest, j =>
      (match jsonGet j k with
       | some v => matchValue m v
       | none => false) && goFields rest j
termination_by structural m => m

/-- The axios client defaults that the test module touches: the common
`Authorization` header and `validateStatus`. -/
structure ClientDefaults where
  authorization : Option String
  validateStatus : Nat → Bool

/-- The body of a `simulateMappingV2` request, exactly the object literal the
tests pass as second argument. -/
structure SimulateBody where
  event_configuration : Json
  format : String
  payload : Json

/-- An outgoing HTTP request: the client's `Authorization` header together
with the request body. -/
structure HttpRequest where
  authorization : Option String
  body : SimulateBody

/-- An HTTP response as axios delivers it: a status code and a parsed body
(`response.data`). -/
structure HttpResponse where
  status : Nat
  data : Json

/-- The fixed runtime environment of the module: `__dirname`, the `JSON.parse`
builtin, and the client defaults that `getClient()` returns before the module
mutates them. -/
structure Sys where
  dirname : String
  jsonParse : String → Except String Json
  getClient : ClientDefaults

/-- The mutable outside world: `process.env`, the file system as seen by
`readFileSync` (UTF-8 contents or a thrown error), and the remote service
answering HTTP requests. -/
structure World where
  processEnv : String → Option String
  fs : String → Except String String
  http : HttpRequest → HttpResponse

/-- Externally visible actions of a run: a file read, an HTTP request, or an
evaluated test assertion. -/
inductive Effect where
  | readFile (path : String)
  | httpPost (req : HttpRequest)
  | assert (passed : Bool)

/-- Whether an effect is an HTTP request. -/
def isHttpPost : Effect → Bool
  | .httpPost _ => true
  | _ => false

/-- Node's `path.join`, as used with `__dirname` and a relative fixture path. -/
def nodeJoin (a b : String) : String := a ++ "/" ++ b

/-- Line 19: `const API_TOKEN = process.env.EPILOT_API_TOKEN;`. -/
def API_TOKEN (w : World) : Option String := w.processEnv "EPILOT_API_TOKEN"

/-- JavaScript truthiness test `!x` for a `string | undefined` value: true for
`undefined` and for the empty string. -/
def jsFalsy : Option String → Bool
  | none => true
  | some s => s == ""

/-- Interpolation of a `string | undefined` value into a template literal. -/
def jsTemplate : Option String → String
  | none => "undefined"
  | some s => s

/-- The message of the `Error` thrown when the API token is missing
(lines 22-25 of the test module). -/
def tokenErrorMessage : String :=
  "EPILOT_API_TOKEN environment variable is required. " ++
  "Please create a .env file with your epilot API token."

/-- Module initialisation (lines 19-30): read `EPILOT_API_TOKEN`, throw if it
is falsy, otherwise build `erpClient` from `getClient()` and set its
`Authorization` header and `validateStatus` override. -/
def moduleInit (sys : Sys) (w : World) : Except String ClientDefaults :=
  if jsFalsy (API_TOKEN w) then
    .error tokenErrorMessage
  else
    .ok { sys.getClient with
          authorization := some ("Bearer " ++ jsTemplate (API_TOKEN w)),
          validateStatus := fun _ => true }

/-- The path `join(__dirname, ../samples/mapping.<eventName>.json)`. -/
def mappingFilePath (sys : Sys) (eventName : String) : String :=
  nodeJoin sys.dirname ("../samples/mapping." ++ eventName ++ ".json")

/-- The path `join(__dirname, ../samples/payload.<eventName>.json)`. -/
def payloadFilePath (sys : Sys) (eventName : String) : String :=
  nodeJoin sys.dirname ("../samples/payload." ++ eventName ++ ".json")

/-- `loadEventConfig` (lines 32-36): read `../samples/mapping.<name>.json`
relative to `__dirname` and `JSON.parse` its contents; the second component
is the trace of file reads the call performs. -/
def loadEventConfig (sys : Sys) (w : World) (eventName : String) :
    Except String Json × List Effect :=
  let mappingPath := mappingFilePath sys eventName
  (match w.fs mappingPath with
   | .error e => .error e
   | .ok mappingContent => sys.jsonParse mappingContent,
   [Effect.readFile mappingPath])

/-- `loadInboundEvent` (lines 38-42): read `../samples/payload.<name>.json`
relative to `__dirname` and `JSON.parse` its contents; the second component
is the trace of file reads the call performs. -/
def loadInboundEvent (sys : Sys) (w : World) (eventName : String) :
    Except String Json × List Effect :=
  let eventPath := payloadFilePath sys eventName
  (match w.fs eventPath with
   | .error e => .error e
   | .ok eventContent => sys.jsonParse eventContent,
   [Effect.readFile eventPath])

/-- `erpClient.simulateMappingV2(null, body)`: send the body with the client's
`Authorization` header; axios resolves with the response when
`validateStatus` accepts the status and rejects otherwise. The issued request
is returned alongside. -/
def simulateMappingV2 (client : ClientDefaults) (w : World) (body : SimulateBody) :
    Except String HttpResponse × HttpRequest :=
  let req : HttpRequest := { authorization := client.authorization, body := body }
  let resp := w.http req
  (if client.validateStatus resp.status then .ok resp
   else .error ("Request failed with status code " ++ toString resp.status),
   req)

/-- `response.data.entity_updates.find(u => u.entity_slug === slug)`: a
`TypeError` is thrown unless `entity_updates` is an array, otherwise the first
matching update (or `undefined`, i.e. `none`) is returned. -/
def findEntityUpdate (data : Json) (slug : String) : Except String (Option Json) :=
  match jsonGet data "entity_updates" with
  | some (.arr updates) =>
    .ok (updates.find? fun u =>
      match jsonGet u "entity_slug" with
      | some v => Json.beq v (.str slug)
      | none => false)
  | _ => .error "TypeError: response.data.entity_updates.find is not a function"

/-- The assertion step of a test body: locate the update for the entity slug
and evaluate `toMatchObject` against the expected pattern (`toMatchObject`
against `undefined` simply fails). -/
def runAssertion (expected : Matcher) (slug : String) (data : Json) :
    Except String Bool :=
  match findEntityUpdate data slug with
  | .error e => .error e
  | .ok none => .ok false
  | .ok (some u) => .ok (matchValue expected u)

/-- Outcome of one `it(...)` block: an uncaught exception, or a finished run
whose assertion passed or failed. -/
inductive TestOutcome where
  | errored (msg : String)
  | finished (passed : Bool)

/-- One `it(...)` block of the suite: its description, the argument passed to
`loadEventConfig`, the argument passed to `loadInboundEvent`, the entity slug
searched for in `entity_updates`, and the `toMatchObject` pattern. -/
structure TestCase where
  name : String
  eventName : String
  payloadName : String
  entitySlug : String
  expected : Matcher

/-- The shared body of every `it(...)` block: load the event configuration,
load the inbound event, send one `simulateMappingV2` request carrying exactly
those two parsed values, and assert on the response data. An exception at any
step aborts the test there. The second component is the trace of external
effects in execution order. -/
def runTestCase (tc : TestCase) (sys : Sys) (w : World) (client : ClientDefaults) :
    TestOutcome × List Effect :=
  match loadEventConfig sys w tc.eventName with
  | (.error e, t1) => (.errored e, t1)
  | (.ok eventConfig, t1) =>
    match loadInboundEvent sys w tc.payloadName with
    | (.error e, t2) => (.errored e, t1 ++ t2)
    | (.ok event, t2) =>
      let body : SimulateBody :=
        { event_configuration := eventConfig, format := "json", payload := event }
      match simulateMappingV2 client w body with
      | (.error e, req) => (.errored e, t1 ++ t2 ++ [Effect.httpPost req])
      | (.ok response, req) =>
        match runAssertion tc.expected tc.entitySlug response.data with
        | .error e => (.errored e, t1 ++ t2 ++ [Effect.httpPost req])
        | .ok passed =>
          (.finished passed,
           t1 ++ t2 ++ [Effect.httpPost req, Effect.assert passed])

/-- Line 16: `const TEST_TIMEOUT = 30000;`. -/
def TEST_TIMEOUT : Nat := 30000

/-- The `it(should map to contact entity)` block of `describe(CustomerChanged)`
(lines 50-114). -/
def contactTestCase : TestCase :=
  { name := "should map to contact entity"
    eventName := "CustomerChanged"
    payloadName := "customer"
    entitySlug := "contact"
    expected := .m_obj [
      ("entity_slug", .m_str "contact"),
      ("attributes", .m_obj [
        ("external_id", .m_str "CUST-9876"),
        ("first_name", .m_str "Max"),
        ("last_name", .m_str "Mustermann"),
        ("company_name", .m_str "Acme Corporation"),
        ("customer_type", .m_str "business"),
        ("tax_id", .m_str "DE123456789"),
        ("status", .m_str "active"),
        ("full_name", .m_str "Acme Corporation"),
        ("email", .m_arr [
          .m_obj [
            ("_tags", .m_arr [.m_str "Primary"]),
            ("email", .m_str "max.mustermann@acme.com")]]),
        ("phone", .m_arr [
          .m_obj [
            ("_tags", .m_arr [.m_str "Primary"]),
            ("phone", .m_str "+49 89 12345678")],
          .m_obj [
            ("_tags", .m_arr [.m_str "Mobile"]),
            ("phone", .m_str "+49 176 98765432")]]),
        ("address", .m_arr [
          .m_obj [
            ("_tags", .m_arr [.m_str "Primary Address"]),
            ("street", .m_str "Hauptstraße 123"),
            ("postal_code", .m_str "80331"),
            ("city", .m_str "Munich"),
            ("country", .m_str "Germany")],
          .m_obj [
            ("_tags", .m_arr [.m_str "Billing Address"]),
            ("street", .m_str "Nebenstraße 456"),
            ("postal_code", .m_str "10115"),
            ("city", .m_str "Berlin"),
            ("country", .m_str "Germany")]]),
        ("account", .m_obj [
          ("$relation", .m_obj [("_set", .anyArray)])])])] }

/-- The `it(should map to account entity)` block of `describe(CustomerChanged)`
(lines 116-188). -/
def accountTestCase : TestCase :=
  { name := "should map to account entity"
    eventName := "CustomerChanged"
    payloadName := "customer"
    entitySlug := "account"
    expected := .m_obj [
      ("entity_slug", .m_str "account"),
      ("attributes", .m_obj [
        ("customer_number", .m_str "CUST-9876"),
        ("name", .m_str "Acme Corporation"),
        ("tax_id", .m_str "DE123456789"),
        ("website", .m_str "https://www.acme-corp.example"),
        ("industry", .m_arr [.m_str "Technology", .m_str "Solar Energy"]),
        ("company_size", .m_str "100-249"),
        ("email", .m_arr [
          .m_obj [
            ("_tags", .m_arr [.m_str "Primary"]),
            ("email", .m_str "max.mustermann@acme.com")]]),
        ("phone", .m_arr [
          .m_obj [
            ("_tags", .m_arr [.m_str "Primary"]),
            ("phone", .m_str "+49 89 12345678")],
          .m_obj [
            ("_tags", .m_arr [.m_str "Mobile"]),
            ("phone", .m_str "+49 176 98765432")]]),
        ("address", .m_arr [
          .m_obj [
            ("_tags", .m_arr [.m_str "Primary Address"]),
            ("street", .m_str "Hauptstraße 123"),
            ("postal_code", .m_str "80331"),
            ("city", .m_str "Munich"),
            ("country", .m_str "Germany")],
          .m_obj [
            ("_tags", .m_arr [.m_str "Billing Address"]),
            ("street", .m_str "Nebenstraße 456"),
            ("postal_code", .m_str "10115"),
            ("city", .m_str "Berlin"),
            ("country", .m_str "Germany")]]),
        ("payment", .m_arr [
          .m_obj [
            ("type", .m_str "payment_sepa"),
            ("data", .m_obj [
              ("iban", .m_str "DE89370400440532013000"),
              ("bic_number", .m_str "DEUTDEFF"),
              ("fullname", .m_str "Acme Corporation")])]]),
        ("contacts", .m_obj [
          ("$relation", .m_obj [("_set", .anyArray)])])])] }

/-- The `it(should map to billing_account entity)` block of
`describe(CustomerChanged)` (lines 190-233). -/
def billingAccountTestCase : TestCase :=
  { name := "should map to billing_account entity"
    eventName := "CustomerChanged"
    payloadName := "customer"
    entitySlug := "billing_account"
    expected := .m_obj [
      ("entity_slug", .m_str "billing_account"),
      ("attributes", .m_obj [
        ("external_id", .m_str "CUST-9876"),
        ("billing_account_number", .m_str "CUST-9876"),
        ("billing_address", .m_obj [
          ("_tags", .m_arr [.m_str "Billing"]),
          ("street", .m_str "Nebenstraße 456"),
          ("postal_code", .m_str "10115"),
          ("city", .m_str "Berlin"),
          ("country", .m_str "Germany")]),
        ("payment_method", .m_arr [
          .m_obj [
            ("type", .m_str "payment_sepa"),
            ("data", .m_obj [
              ("iban", .m_str "DE89370400440532013000"),
              ("bic_number", .m_str "DEUTDEFF"),
              ("fullname", .m_str "Acme Corporation")])]]),
        ("billing_contact", .m_obj [
          ("$relation", .m_obj [("_set", .anyArray)])])])] }

/-- The `it(should map to contact entity)` block of `describe(OrderChanged)`
(lines 237-270). -/
def orderContactTestCase : TestCase :=
  { name := "should map to contact entity"
    eventName := "OrderChanged"
    payloadName := "order"
    entitySlug := "contact"
    expected := .m_obj [
      ("entity_slug", .m_str "contact"),
      ("attributes", .m_obj [
        ("external_id", .m_str "CUST-9876"),
        ("full_name", .m_str "Acme Corporation"),
        ("email", .m_arr [
          .m_obj [
            ("_tags", .m_arr [.m_str "Primary"]),
            ("email", .m_str "contact@acme.com")]]),
        ("phone", .m_arr [
          .m_obj [
            ("_tags", .m_arr [.m_str "Primary"]),
            ("phone", .m_str "+49 89 12345678")]])])] }

/-- The `it(should map to order entity)` block of `describe(OrderChanged)`
(lines 272-331). -/
def orderTestCase : TestCase :=
  { name := "should map to order entity"
    eventName := "OrderChanged"
    payloadName := "order"
    entitySlug := "order"
    expected := .m_obj [
      ("entity_slug", .m_str "order"),
      ("attributes", .m_obj [
        ("external_id", .m_str "ORD-2024-12345"),
        ("order_number", .m_str "ORD-2024-12345"),
        ("order_date", .m_str "2024-10-21T10:30:00Z"),
        ("status", .m_str "pending"),
        ("delivery_date", .m_str "2024-11-15"),
        ("total_amount_decimal", .m_str "3499.90"),
        ("total_amount", .m_str "349990"),
        ("total_amount_currency", .m_str "EUR"),
        ("item_count", .m_num 2),
        ("shipping_address", .m_arr [
          .m_obj [
            ("street", .m_str "Hauptstraße 123"),
            ("postal_code", .m_str "80331"),
            ("city", .m_str "Munich"),
            ("country", .m_str "Germany")]]),
        ("order_items", .m_arr [
          .m_obj [
            ("_tags", .m_arr [.m_str "PROD-001"]),
            ("product_id", .m_str "PROD-001"),
            ("product_name", .m_str "Solar Panel 400W"),
            ("quantity", .m_str "10"),
            ("unit_price", .m_str "299.99"),
            ("total_price", .m_str "2999.90")],
          .m_obj [
            ("_tags", .m_arr [.m_str "PROD-002"]),
            ("product_id", .m_str "PROD-002"),
            ("product_name", .m_str "Installation Service"),
            ("quantity", .m_str "1"),
            ("unit_price", .m_str "500.00"),
            ("total_price", .m_str "500.00")],
          ]),
        ("customer", .m_obj [
          ("$relation", .m_obj [("_set", .anyArray)])])])] }

/-- The `describe(CustomerChanged)` block: its three `it` cases in order. -/
def customerChangedTests : List TestCase :=
  [contactTestCase, accountTestCase, billingAccountTestCase]

/-- The `describe(OrderChanged)` block: its two `it` cases in order. -/
def orderChangedTests : List TestCase :=
  [orderContactTestCase, orderTestCase]

/-- The `describe(Sample Mappings)` suite: its named inner describe blocks. -/
def sampleMappings : List (String × List TestCase) :=
  [("CustomerChanged", customerChangedTests),
   ("OrderChanged", orderChangedTests)]

/-- All `it` cases of the suite in file order. -/
def allTests : List TestCase :=
  (sampleMappings.map Prod.snd).flatten

/-- A whole run of the test module: module initialisation first (whose thrown
`Error` aborts everything before any test runs), then every test case in
order. The trace collects all external effects of the run. -/
def runSuite (sys : Sys) (w : World) :
    Except String (List TestOutcome) × List Effect :=
  match moduleInit sys w with
  | .error e => (.error e, [])
  | .ok client =>
    let results := allTests.map fun tc => runTestCase tc sys w client
    (.ok (results.map Prod.fst), (results.map Prod.snd).flatten)

/-! ### Concrete environments used to instantiate the theorems -/

/-- A concrete runtime: a fixed `__dirname`, a parse builtin that wraps the
file contents in a JSON string, and untouched client defaults. -/
def cSys : Sys :=
  { dirname := "/repo/tests"
    jsonParse := fun s => .ok (.str s)
    getClient := { authorization := none, validateStatus := fun s => decide (s < 400) } }

/-- A concrete world: the token is set, every file read succeeds, and the
service answers 200 with an empty `entity_updates` array. -/
def cWorld : World :=
  { processEnv := fun k => if k == "EPILOT_API_TOKEN" then some "tok123" else none
    fs := fun _ => .ok "sample"
    http := fun _ => { status := 200, data := .obj [("entity_updates", .arr [])] } }

/-- The client that module initialisation produces in `cWorld`. -/
def cClient : ClientDefaults :=
  { authorization := some ("Bearer " ++ "tok123"), validateStatus := fun _ => true }

/-- `cWorld` with the token variable unset. -/
def cNoTokenWorld : World := { cWorld with processEnv := fun _ => none }

/-- `cWorld` with the token variable set to the empty string. -/
def cEmptyTokenWorld : World :=
  { cWorld with processEnv := fun k => if k == "EPILOT_API_TOKEN" then some "" else none }

/-- `cWorld` with a different remote service (HTTP 500, null body) but the
same file system. -/
def cAltWorld : World :=
  { cWorld with http := fun _ => { status := 500, data := .null } }

/-- `cWorld` with a file system on which every read throws. -/
def cNoFileWorld : World :=
  { cWorld with fs := fun _ => .error "ENOENT: no such file or directory" }

/-- A file system on which exactly the customer payload fixture is missing. -/
def cPayloadMissingFs (p : String) : Except String String :=
  if p == payloadFilePath cSys "customer" then
    .error "ENOENT: no such file or directory"
  else
    .ok "sample"

/-- `cWorld` with a file system on which exactly the customer payload fixture
is missing. -/
def cPayloadMissingWorld : World :=
  { cWorld with fs := cPayloadMissingFs }

/-- The one request the first test case issues in `cWorld` with `cClient`. -/
def cReq : HttpRequest :=
  ⟨some ("Bearer " ++ "tok123"), ⟨.str "sample", "json", .str "sample"⟩⟩

/-- A trivial request body used to exercise `simulateMappingV2` directly. -/
def cBody : SimulateBody :=
  { event_configuration := Json.null, format := "json", payload := Json.null }

/-! ### Helper lemmas -/

/-- The five test cases of the suite, in file order. -/
theorem allTests_eq :
    allTests = [contactTestCase, accountTestCase, billingAccountTestCase,
                orderContactTestCase, orderTestCase] := rfl

theorem contactTestCase_mem : contactTestCase ∈ allTests := by
  rw [allTests_eq]; exact List.mem_cons_self _ _

/-- Recompose a fact about the value of `loadEventConfig` into a fact about
the full call, whose trace component is fixed. -/
theorem loadEventConfig_eq (sys : Sys) (w : World) (e : String)
    (r : Except String Json) (h : (loadEventConfig sys w e).1 = r) :
    loadEventConfig sys w e = (r, [Effect.readFile (mappingFilePath sys e)]) := by
  rw [← h]; rfl

/-- Recompose a fact about the value of `loadInboundEvent` into a fact about
the full call, whose trace component is fixed. -/
theorem loadInboundEvent_eq (sys : Sys) (w : World) (e : String)
    (r : Except String Json) (h : (loadInboundEvent sys w e).1 = r) :
    loadInboundEvent sys w e = (r, [Effect.readFile (payloadFilePath sys e)]) := by
  rw [← h]; rfl

/-- A test case whose event-configuration load throws stops at once: the only
effect is the one file read. -/
theorem runTestCase_config_error (tc : TestCase) (sys : Sys) (w : World)
    (client : ClientDefaults) (e : String)
    (h : (loadEventConfig sys w tc.eventName).1 = .error e) :
    runTestCase tc sys w client =
      (.errored e, [Effect.readFile (mappingFilePath sys tc.eventName)]) := by
  unfold runTestCase
  rw [loadEventConfig_eq _ _ _ _ h]

/-- A test case whose inbound-event load throws stops there: the only effects
are the two file reads. -/
theorem runTestCase_payload_error (tc : TestCase) (sys : Sys) (w : World)
    (client : ClientDefaults) (eventConfig : Json) (e : String)
    (hc : (loadEventConfig sys w tc.eventName).1 = .ok eventConfig)
    (hp : (loadInboundEvent sys w tc.payloadName).1 = .error e) :
    runTestCase tc sys w client =
      (.errored e, [Effect.readFile (mappingFilePath sys tc.eventName),
                    Effect.readFile (payloadFilePath sys tc.payloadName)]) := by
  unfold runTestCase
  rw [loadEventConfig_eq _ _ _ _ hc, loadInboundEvent_eq _ _ _ _ hp]
  rfl

/-- When both fixture loads succeed, a test case issues exactly the request
whose body holds the two parsed values and proceeds to the assertion. -/
theorem runTestCase_loads_ok (tc : TestCase) (sys : Sys) (w : World)
    (client : ClientDefaults) (eventConfig event : Json)
    (hc : (loadEventConfig sys w tc.eventName).1 = .ok eventConfig)
    (hp : (loadInboundEvent sys w tc.payloadName).1 = .ok event) :
    runTestCase tc sys w client =
      (match (simulateMappingV2 client w ⟨eventConfig, "json", event⟩).1 with
       | .error e =>
         (.errored e,
          [Effect.readFile (mappingFilePath sys tc.eventName),
           Effect.readFile (payloadFilePath sys tc.payloadName),
           Effect.httpPost ⟨client.authorization, ⟨eventConfig, "json", event⟩⟩])
       | .ok response =>
         match runAssertion tc.expected tc.entitySlug response.data with
         | .error e =>
           (.errored e,
            [Effect.readFile (mappingFilePath sys tc.eventName),
             Effect.readFile (payloadFilePath sys tc.payloadName),
             Effect.httpPost ⟨client.authorization, ⟨eventConfig, "json", event⟩⟩])
         | .ok passed =>
           (.finished passed,
            [Effect.readFile (mappingFilePath sys tc.eventName),
             Effect.readFile (payloadFilePath sys tc.payloadName),
             Effect.httpPost ⟨client.authorization, ⟨eventConfig, "json", event⟩⟩,
             Effect.assert passed])) := by
  unfold runTestCase
  rw [loadEventConfig_eq _ _ _ _ hc, loadInboundEvent_eq _ _ _ _ hp]
  cases hv : client.validateStatus
      (w.http ⟨client.authorization, ⟨eventConfig, "json", event⟩⟩).status with
  | false => simp [simulateMappingV2, hv]
  | true =>
    cases ha : runAssertion tc.expected tc.entitySlug
        (w.http ⟨client.authorization, ⟨eventConfig, "json", event⟩⟩).data with
    | error e => simp [simulateMappingV2, hv, ha]
    | ok passed => simp [simulateMappingV2, hv, ha]

/-- Any HTTP request appearing in the trace of a test case was issued after
both fixture loads succeeded, and consists of the client's header and a body
holding exactly the two parsed fixture values with format `json`. -/
theorem httpPost_mem_elim (tc : TestCase) (sys : Sys) (w : World)
    (client : ClientDefaults) (req : HttpRequest)
    (hreq : Effect.httpPost req ∈ (runTestCase tc sys w client).2) :
    ∃ eventConfig event,
      (loadEventConfig sys w tc.eventName).1 = .ok eventConfig ∧
      (loadInboundEvent sys w tc.payloadName).1 = .ok event ∧
      req = ⟨client.authorization, ⟨eventConfig, "json", event⟩⟩ := by
  rcases hc : (loadEventConfig sys w tc.eventName).1 with e | eventConfig
  · rw [runTestCase_config_error tc sys w client e hc] at hreq
    simp at hreq
  · rcases hp : (loadInboundEvent sys w tc.payloadName).1 with e | event
    · rw [runTestCase_payload_error tc sys w client eventConfig e hc hp] at hreq
      simp at hreq
    · refine ⟨eventConfig, event, rfl, rfl, ?_⟩
      rw [runTestCase_loads_ok tc sys w client eventConfig event hc hp] at hreq
      rcases hs : (simulateMappingV2 client w ⟨eventConfig, "json", event⟩).1 with e | response
      · rw [hs] at hreq
        simp at hreq
        exact hreq
      · rw [hs] at hreq
        dsimp only at hreq
        rcases ha : runAssertion tc.expected tc.entitySlug response.data with e | passed
        · rw [ha] at hreq
          simp at hreq
          exact hreq
        · rw [ha] at hreq
          simp at hreq
          exact hreq

/-- A test case that reaches its assertion has exactly the trace
read, read, request, assert. -/
theorem finished_trace (tc : TestCase) (sys : Sys) (w : World)
    (client : ClientDefaults) (b : Bool)
    (hb : (runTestCase tc sys w client).1 = .finished b) :
    ∃ req, (runTestCase tc sys w client).2 =
      [Effect.readFile (mappingFilePath sys tc.eventName),
       Effect.readFile (payloadFilePath sys tc.payloadName),
       Effect.httpPost req, Effect.assert b] := by
  rcases hc : (loadEventConfig sys w tc.eventName).1 with e | eventConfig
  · rw [runTestCase_config_error tc sys w client e hc] at hb
    simp at hb
  · rcases hp : (loadInboundEvent sys w tc.payloadName).1 with e | event
    · rw [runTestCase_payload_error tc sys w client eventConfig e hc hp] at hb
      simp at hb
    · rw [runTestCase_loads_ok tc sys w client eventConfig event hc hp] at hb ⊢
      rcases hs : (simulateMappingV2 client w ⟨eventConfig, "json", event⟩).1 with e | response
      · rw [hs] at hb
        simp at hb
      · rw [hs] at hb
        dsimp only at hb ⊢
        rcases ha : runAssertion tc.expected tc.entitySlug response.data with e | passed
        · rw [ha] at hb
          simp at hb
        · rw [ha] at hb
          dsimp only at hb ⊢
          simp only [TestOutcome.finished.injEq] at hb
          subst hb
          exact ⟨⟨client.authorization, ⟨eventConfig, "json", event⟩⟩, rfl⟩

/-- Module initialisation succeeds exactly on a truthy token and then yields
the client with the bearer header and the constant-true status validator. -/
theorem moduleInit_ok_elim (sys : Sys) (w : World) (client : ClientDefaults)
    (h : moduleInit sys w = .ok client) :
    jsFalsy (API_TOKEN w) = false ∧
    client = ⟨some ("Bearer " ++ jsTemplate (API_TOKEN w)), fun _ => true⟩ := by
  unfold moduleInit at h
  split at h
  · simp at h
  · rename_i hcond
    exact ⟨by simpa using hcond, (Except.ok.inj h).symm⟩

/-- The trace of the first test case in the concrete world: two reads, the
one request, and a failed assertion (the stub service returns no updates). -/
theorem cTrace_eq :
    (runTestCase contactTestCase cSys cWorld cClient).2 =
      [Effect.readFile (mappingFilePath cSys "CustomerChanged"),
       Effect.readFile (payloadFilePath cSys "customer"),
       Effect.httpPost cReq, Effect.assert false] := rfl

/-! ### Claim theorems -/

/-- C1: the repository performs no transformation of the data it handles: in
every test case, any request body sent to `simulateMappingV2` holds exactly
the value returned by `loadEventConfig` as `event_configuration`, the value
returned by `loadInboundEvent` as `payload`, and the literal string `json`
as `format`. -/
theorem c1_request_body_unchanged (tc : TestCase) (_hm : tc ∈ allTests)
    (sys : Sys) (w : World) (client : ClientDefaults) (req : HttpRequest)
    (hreq : Effect.httpPost req ∈ (runTestCase tc sys w client).2) :
    ∃ eventConfig event,
      (loadEventConfig sys w tc.eventName).1 = .ok eventConfig ∧
      (loadInboundEvent sys w tc.payloadName).1 = .ok event ∧
      req.body = ⟨eventConfig, "json", event⟩ := by
  obtain ⟨eventConfig, event, hc, hp, hr⟩ := httpPost_mem_elim tc sys w client req hreq
  exact ⟨eventConfig, event, hc, hp, by rw [hr]⟩

theorem c1_witness :
    ∃ eventConfig event,
      (loadEventConfig cSys cWorld "CustomerChanged").1 = .ok eventConfig ∧
      (loadInboundEvent cSys cWorld "customer").1 = .ok event ∧
      cReq.body = ⟨eventConfig, "json", event⟩ :=
  c1_request_body_unchanged contactTestCase contactTestCase_mem cSys cWorld cClient cReq
    (by rw [cTrace_eq]
        exact List.mem_cons_of_mem _ (List.mem_cons_of_mem _ (List.mem_cons_self _ _)))

/-- C2: fixture loading is exactly read-then-parse: `loadEventConfig e`
returns `JSON.parse` of the contents of `samples/mapping.<e>.json` and
`loadInboundEvent e` returns `JSON.parse` of the contents of
`samples/payload.<e>.json`, with no further transformation. -/
theorem c2_loaders_are_read_then_parse (sys : Sys) (w : World) (e : String) :
    (loadEventConfig sys w e).1 =
      (w.fs (nodeJoin sys.dirname ("../samples/mapping." ++ e ++ ".json"))).bind
        sys.jsonParse ∧
    (loadInboundEvent sys w e).1 =
      (w.fs (nodeJoin sys.dirname ("../samples/payload." ++ e ++ ".json"))).bind
        sys.jsonParse := by
  have h1 : ∀ (r : Except String String),
      (match r with
       | .error err => (.error err : Except String Json)
       | .ok c => sys.jsonParse c) = r.bind sys.jsonParse := by
    intro r
    cases r <;> rfl
  exact ⟨h1 (w.fs (mappingFilePath sys e)), h1 (w.fs (payloadFilePath sys e))⟩

/-- C3: every test case is the same three steps in order (load the two
fixtures, issue one HTTP request, assert on the response), and the suite
instantiates this once per sample combination: three CustomerChanged tests
and two OrderChanged tests. -/
theorem c3_suite_is_load_request_assert :
    (sampleMappings.map fun p => (p.1, p.2.length)) =
      [("CustomerChanged", 3), ("OrderChanged", 2)] ∧
    ∀ tc ∈ allTests, ∀ (sys : Sys) (w : World) (client : ClientDefaults) (b : Bool),
      (runTestCase tc sys w client).1 = .finished b →
      ∃ req, (runTestCase tc sys w client).2 =
        [Effect.readFile (mappingFilePath sys tc.eventName),
         Effect.readFile (payloadFilePath sys tc.payloadName),
         Effect.httpPost req, Effect.assert b] :=
  ⟨rfl, fun tc _ sys w client b hb => finished_trace tc sys w client b hb⟩

theorem c3_witness :
    (sampleMappings.map fun p => (p.1, p.2.length)) =
      [("CustomerChanged", 3), ("OrderChanged", 2)] ∧
    ∃ req, (runTestCase contactTestCase cSys cWorld cClient).2 =
      [Effect.readFile (mappingFilePath cSys "CustomerChanged"),
       Effect.readFile (payloadFilePath cSys "customer"),
       Effect.httpPost req, Effect.assert false] :=
  ⟨c3_suite_is_load_request_assert.1,
   c3_suite_is_load_request_assert.2 contactTestCase contactTestCase_mem
     cSys cWorld cClient false rfl⟩

/-- C4: with the client produced by module initialisation from a set token,
every HTTP request issued by every test case carries the Authorization header
Bearer followed by the token. -/
theorem c4_requests_carry_bearer_token (sys : Sys) (w : World)
    (client : ClientDefaults) (tok : String)
    (htok : API_TOKEN w = some tok)
    (hinit : moduleInit sys w = .ok client)
    (tc : TestCase) (_hm : tc ∈ allTests)
    (req : HttpRequest)
    (hreq : Effect.httpPost req ∈ (runTestCase tc sys w client).2) :
    req.authorization = some ("Bearer " ++ tok) := by
  obtain ⟨-, hclient⟩ := moduleInit_ok_elim sys w client hinit
  obtain ⟨eventConfig, event, -, -, hr⟩ := httpPost_mem_elim tc sys w client req hreq
  rw [hr, hclient, htok]
  rfl

theorem c4_witness : cReq.authorization = some ("Bearer " ++ "tok123") :=
  c4_requests_carry_bearer_token cSys cWorld cClient "tok123" rfl rfl
    contactTestCase contactTestCase_mem cReq
    (by rw [cTrace_eq]
        exact List.mem_cons_of_mem _ (List.mem_cons_of_mem _ (List.mem_cons_self _ _)))

/-- C5: no retry logic: a test case issues at most one `simulateMappingV2`
request per run, and exactly one as soon as both fixture loads succeed,
whatever status code or body the service answers with. -/
theorem c5_exactly_one_request (tc : TestCase) (_hm : tc ∈ allTests)
    (sys : Sys) (w : World) (client : ClientDefaults) :
    (runTestCase tc sys w client).2.countP isHttpPost ≤ 1 ∧
    (∀ eventConfig event,
      (loadEventConfig sys w tc.eventName).1 = .ok eventConfig →
      (loadInboundEvent sys w tc.payloadName).1 = .ok event →
      (runTestCase tc sys w client).2.countP isHttpPost = 1) := by
  constructor
  · rcases hc : (loadEventConfig sys w tc.eventName).1 with e | eventConfig
    · rw [runTestCase_config_error tc sys w client e hc]
      exact Nat.zero_le _
    · rcases hp : (loadInboundEvent sys w tc.payloadName).1 with e | event
      · rw [runTestCase_payload_error tc sys w client eventConfig e hc hp]
        exact Nat.zero_le _
      · rw [runTestCase_loads_ok tc sys w client eventConfig event hc hp]
        rcases hs : (simulateMappingV2 client w ⟨eventConfig, "json", event⟩).1 with e | response
        · exact Nat.le.refl
        · dsimp only
          rcases ha : runAssertion tc.expected tc.entitySlug response.data with e | passed
          · exact Nat.le.refl
          · exact Nat.le.refl
  · intro eventConfig event hc hp
    rw [runTestCase_loads_ok tc sys w client eventConfig event hc hp]
    rcases hs : (simulateMappingV2 client w ⟨eventConfig, "json", event⟩).1 with e | response
    · rfl
    · dsimp only
      rcases ha : runAssertion tc.expected tc.entitySlug response.data with e | passed
      · rfl
      · rfl

theorem c5_witness :
    (runTestCase contactTestCase cSys cWorld cClient).2.countP isHttpPost ≤ 1 ∧
    (runTestCase contactTestCase cSys cWorld cClient).2.countP isHttpPost = 1 :=
  ⟨(c5_exactly_one_request contactTestCase contactTestCase_mem cSys cWorld cClient).1,
   (c5_exactly_one_request contactTestCase contactTestCase_mem cSys cWorld cClient).2
     (.str "sample") (.str "sample") rfl rfl⟩

/-- C6: no caching: each loader call performs exactly one fresh file read,
and the returned value depends only on the current contents of that one
file, so equal contents give equal values and changed contents are seen by
the very next call. -/
theorem c6_no_caching :
    (∀ (sys : Sys) (w : World) (e : String),
       (loadEventConfig sys w e).2 = [Effect.readFile (mappingFilePath sys e)] ∧
       (loadInboundEvent sys w e).2 = [Effect.readFile (payloadFilePath sys e)]) ∧
    (∀ (sys : Sys) (w1 w2 : World) (e : String),
       w1.fs (mappingFilePath sys e) = w2.fs (mappingFilePath sys e) →
       (loadEventConfig sys w1 e).1 = (loadEventConfig sys w2 e).1) ∧
    (∀ (sys : Sys) (w1 w2 : World) (e : String),
       w1.fs (payloadFilePath sys e) = w2.fs (payloadFilePath sys e) →
       (loadInboundEvent sys w1 e).1 = (loadInboundEvent sys w2 e).1) := by
  refine ⟨fun sys w e => ⟨rfl, rfl⟩, fun sys w1 w2 e h => ?_, fun sys w1 w2 e h => ?_⟩
  · dsimp only [loadEventConfig]
    rw [h]
  · dsimp only [loadInboundEvent]
    rw [h]

theorem c6_witness :
    ((loadEventConfig cSys cWorld "CustomerChanged").2 =
       [Effect.readFile (mappingFilePath cSys "CustomerChanged")] ∧
     (loadInboundEvent cSys cWorld "CustomerChanged").2 =
       [Effect.readFile (payloadFilePath cSys "CustomerChanged")]) ∧
    (loadEventConfig cSys cWorld "CustomerChanged").1 =
      (loadEventConfig cSys cAltWorld "CustomerChanged").1 ∧
    (loadInboundEvent cSys cWorld "customer").1 =
      (loadInboundEvent cSys cAltWorld "customer").1 :=
  ⟨c6_no_caching.1 cSys cWorld "CustomerChanged",
   c6_no_caching.2.1 cSys cWorld cAltWorld "CustomerChanged" rfl,
   c6_no_caching.2.2 cSys cWorld cAltWorld "customer" rfl⟩

/-- C7 counterexample: in a world whose file system always succeeds, running
the module with the token variable unset raises an error although no file
was read, no HTTP request was made, and no assertion was evaluated (the
trace is empty) - an explicit condition-inspecting raise beyond the implicit
failures of file read, HTTP call and assertion. -/
theorem c7_counterexample :
    runSuite cSys cNoTokenWorld = (.error tokenErrorMessage, []) ∧
    cNoTokenWorld.fs = cWorld.fs ∧
    cWorld.fs = (fun _ => Except.ok "sample") :=
  ⟨rfl, rfl, rfl⟩

/-- C7 (amended): the only explicit condition-inspecting raise is the module
guard on a falsy `EPILOT_API_TOKEN`; inside a test body every error is an
implicit failure of a fixture load, of the HTTP call, or of the
response-shape access in the assertion. -/
theorem c7_error_sources :
    (∀ (sys : Sys) (w : World),
       (∃ e, moduleInit sys w = .error e) ↔ jsFalsy (API_TOKEN w) = true) ∧
    (∀ tc ∈ allTests, ∀ (sys : Sys) (w : World) (client : ClientDefaults) (e : String),
       (runTestCase tc sys w client).1 = .errored e →
       (loadEventConfig sys w tc.eventName).1 = .error e ∨
       (loadInboundEvent sys w tc.payloadName).1 = .error e ∨
       (∃ body, (simulateMappingV2 client w body).1 = .error e) ∨
       (∃ data, findEntityUpdate data tc.entitySlug = .error e)) := by
  constructor
  · intro sys w
    unfold moduleInit
    cases hfal : jsFalsy (API_TOKEN w) <;> simp
  · intro tc _ sys w client e herr
    rcases hc : (loadEventConfig sys w tc.eventName).1 with e1 | eventConfig
    · rw [runTestCase_config_error tc sys w client e1 hc] at herr
      simp at herr
      left
      rw [← herr]
    · rcases hp : (loadInboundEvent sys w tc.payloadName).1 with e1 | event
      · rw [runTestCase_payload_error tc sys w client eventConfig e1 hc hp] at herr
        simp at herr
        right; left
        rw [← herr]
      · rw [runTestCase_loads_ok tc sys w client eventConfig event hc hp] at herr
        rcases hs : (simulateMappingV2 client w ⟨eventConfig, "json", event⟩).1 with e1 | response
        · rw [hs] at herr
          simp at herr
          right; right; left
          refine ⟨⟨eventConfig, "json", event⟩, ?_⟩
          rw [hs, herr]
        · rw [hs] at herr
          dsimp only at herr
          rcases ha : runAssertion tc.expected tc.entitySlug response.data with e1 | passed
          · rw [ha] at herr
            simp at herr
            subst herr
            right; right; right
            refine ⟨response.data, ?_⟩
            unfold runAssertion at ha
            rcases hf : findEntityUpdate response.data tc.entitySlug with e2 | u
            · rw [hf] at ha
              simp at ha
              rw [ha]
            · rw [hf] at ha
              rcases u with _ | u2 <;> simp at ha
          · rw [ha] at herr
            simp at herr

theorem c7_witness :
    ((∃ e, moduleInit cSys cWorld = .error e) ↔ jsFalsy (API_TOKEN cWorld) = true) ∧
    ((loadEventConfig cSys cNoFileWorld "CustomerChanged").1 =
       .error "ENOENT: no such file or directory" ∨
     (loadInboundEvent cSys cNoFileWorld "customer").1 =
       .error "ENOENT: no such file or directory" ∨
     (∃ body, (simulateMappingV2 cClient cNoFileWorld body).1 =
       .error "ENOENT: no such file or directory") ∨
     (∃ data, findEntityUpdate data "contact" =
       .error "ENOENT: no such file or directory")) :=
  ⟨c7_error_sources.1 cSys cWorld,
   c7_error_sources.2 contactTestCase contactTestCase_mem cSys cNoFileWorld cClient
     "ENOENT: no such file or directory" rfl⟩

/-- C8 counterexample: with `EPILOT_API_TOKEN` set to the empty string the
variable is set, yet module initialisation still throws, because the guard
tests JavaScript truthiness rather than presence. -/
theorem c8_counterexample :
    cEmptyTokenWorld.processEnv "EPILOT_API_TOKEN" = some "" ∧
    moduleInit cSys cEmptyTokenWorld = .error tokenErrorMessage :=
  ⟨rfl, rfl⟩

/-- C8 (amended): if `EPILOT_API_TOKEN` is unset or set to the empty string,
module initialisation throws an Error whose message starts with
EPILOT_API_TOKEN, the whole run aborts with no test executed and an empty
effect trace; if it is set to a non-empty string, initialisation does not
throw on this path. -/
theorem c8_token_guard :
    (∀ (sys : Sys) (w : World), jsFalsy (API_TOKEN w) = true →
       runSuite sys w = (.error tokenErrorMessage, []) ∧
       ∃ rest, tokenErrorMessage = "EPILOT_API_TOKEN" ++ rest) ∧
    (∀ (sys : Sys) (w : World) (tok : String),
       API_TOKEN w = some tok → tok ≠ "" →
       ∃ client, moduleInit sys w = .ok client) := by
  constructor
  · intro sys w h
    constructor
    · simp [runSuite, moduleInit, h]
    · exact ⟨" environment variable is required. Please create a .env file with your epilot API token.", rfl⟩
  · intro sys w tok htok hne
    have hfal : jsFalsy (API_TOKEN w) = false := by
      rw [htok]
      simp [jsFalsy, hne]
    refine ⟨⟨some ("Bearer " ++ jsTemplate (API_TOKEN w)), fun _ => true⟩, ?_⟩
    simp [moduleInit, hfal]

theorem c8_witness :
    (runSuite cSys cNoTokenWorld = (.error tokenErrorMessage, []) ∧
     ∃ rest, tokenErrorMessage = "EPILOT_API_TOKEN" ++ rest) ∧
    ∃ client, moduleInit cSys cWorld = .ok client :=
  ⟨c8_token_guard.1 cSys cNoTokenWorld rfl,
   c8_token_guard.2 cSys cWorld "tok123" rfl (by decide)⟩

/-- C9: the client produced by module initialisation validates every status
code, so `simulateMappingV2` always resolves with the service's response and
the assertion is evaluated whatever the status. -/
theorem c9_validate_status_always_true (sys : Sys) (w : World)
    (client : ClientDefaults) (hinit : moduleInit sys w = .ok client) :
    (∀ s, client.validateStatus s = true) ∧
    (∀ (w2 : World) (body : SimulateBody),
      (simulateMappingV2 client w2 body).1 =
        .ok (w2.http ⟨client.authorization, body⟩)) := by
  obtain ⟨-, hclient⟩ := moduleInit_ok_elim sys w client hinit
  subst hclient
  exact ⟨fun s => rfl, fun w2 body => rfl⟩

theorem c9_witness :
    cClient.validateStatus 404 = true ∧
    (simulateMappingV2 cClient cAltWorld cBody).1 =
      .ok (cAltWorld.http ⟨cClient.authorization, cBody⟩) :=
  ⟨(c9_validate_status_always_true cSys cWorld cClient rfl).1 404,
   (c9_validate_status_always_true cSys cWorld cClient rfl).2 cAltWorld cBody⟩

/-- C10: if a fixture load throws (file missing or invalid JSON), the test
case stops at that load: its outcome is the thrown error and its trace holds
only the file reads made so far, in particular no HTTP request. -/
theorem c10_load_failure_stops_test (tc : TestCase) (_hm : tc ∈ allTests)
    (sys : Sys) (w : World) (client : ClientDefaults) :
    (∀ e, (loadEventConfig sys w tc.eventName).1 = .error e →
      runTestCase tc sys w client =
        (.errored e, [Effect.readFile (mappingFilePath sys tc.eventName)])) ∧
    (∀ eventConfig e,
      (loadEventConfig sys w tc.eventName).1 = .ok eventConfig →
      (loadInboundEvent sys w tc.payloadName).1 = .error e →
      runTestCase tc sys w client =
        (.errored e, [Effect.readFile (mappingFilePath sys tc.eventName),
                      Effect.readFile (payloadFilePath sys tc.payloadName)])) :=
  ⟨fun e h => runTestCase_config_error tc sys w client e h,
   fun eventConfig e hc hp => runTestCase_payload_error tc sys w client eventConfig e hc hp⟩

theorem c10_witness :
    runTestCase contactTestCase cSys cNoFileWorld cClient =
      (.errored "ENOENT: no such file or directory",
       [Effect.readFile (mappingFilePath cSys "CustomerChanged")]) ∧
    runTestCase contactTestCase cSys cPayloadMissingWorld cClient =
      (.errored "ENOENT: no such file or directory",
       [Effect.readFile (mappingFilePath cSys "CustomerChanged"),
        Effect.readFile (payloadFilePath cSys "customer")]) :=
  ⟨(c10_load_failure_stops_test contactTestCase contactTestCase_mem
      cSys cNoFileWorld cClient).1 "ENOENT: no such file or directory" rfl,
   (c10_load_failure_stops_test contactTestCase contactTestCase_mem
      cSys cPayloadMissingWorld cClient).2 (.str "sample")
      "ENOENT: no such file or directory" rfl rfl⟩
